import Mathlib

/-!
Shallow embedding of the request-dispatch and normalization layer of the
victron-vrm-mcp server (src/vrm-client.ts) and of its argument validator
(src/schemas.ts), with theorems checking the specification's claims.

JavaScript values flowing through the dispatcher are modelled by the `Json`
type (JS `undefined` is the `undefined` constructor, JS numbers are exact
rationals ℚ), and JS truthiness, property access, string/number coercions,
base64 and UTF-8 decoding, and `Date.toISOString` are modelled explicitly.
The nondeterministic inputs of a call (the fetch outcome, `crypto.randomUUID`,
`Date.now`, timestamps) are passed in as explicit parameters, so every
operation of the client is a pure function of its arguments and of the
HTTP outcome.
-/

/-- Model of a JavaScript/JSON value as the dispatcher sees one. `undefined` is
JS `undefined`; numbers are exact rationals (no NaN/Infinity, which never
arise on the paths modelled here). -/
inductive Json where
  | undefined
  | null
  | bool (b : Bool)
  | num (q : ℚ)
  | str (s : String)
  | arr (elems : List Json)
  | obj (fields : List (String × Json))

/-- JS truthiness of a value: `undefined`, `null`, `false`, `0` and `""` are
falsy; every object and array is truthy. -/
def jsTruthy : Json → Bool
  | .undefined => false
  | .null => false
  | .bool b => b
  | .num q => !(q == 0)
  | .str s => !(s == "")
  | .arr _ => true
  | .obj _ => true

/-- JS optional-chaining property access `v?.key`: the field's value on an
object that has the key, `undefined` otherwise (also on `null`, strings,
numbers and arrays, whose non-index properties are undefined). -/
def jsGet (v : Json) (key : String) : Json :=
  match v with
  | .obj fields =>
    match fields.lookup key with
    | some x => x
    | none => .undefined
  | _ => .undefined

/-- Splitting a character list at every occurrence of a separator, keeping
empty parts: the semantics of JS `String.prototype.split` with a one-character
separator (an empty input gives one empty part). -/
def splitListChar (sep : Char) : List Char → List (List Char)
  | [] => [[]]
  | c :: rest =>
    let r := splitListChar sep rest
    if c = sep then [] :: r
    else
      match r with
      | [] => [[c]]
      | h :: t => (c :: h) :: t

/-- JS `s.split(sep)` for a one-character separator. -/
def jsSplit (sep : Char) (s : String) : List String :=
  (splitListChar sep s.data).map String.mk

/-- JS `s.trim()`: whitespace stripped from both ends. -/
def jsTrim (s : String) : String :=
  String.mk (((s.data.dropWhile Char.isWhitespace).reverse.dropWhile Char.isWhitespace).reverse)

/-- Numeric value of a digit list (most significant first). -/
def digitsVal (cs : List Char) : Nat :=
  cs.foldl (fun a c => a * 10 + (c.toNat - 48)) 0

/-- A rational from a parsed decimal literal: sign, integer digits, fraction
digits, and a base-10 exponent. -/
def decimalToRat (sign : Int) (ip fp : List Char) (exponent : Int) : ℚ :=
  let mantissa : Int := (digitsVal ip * 10 ^ fp.length + digitsVal fp : Nat)
  let shift : Int := exponent - fp.length
  if 0 ≤ shift then mkRat (sign * mantissa * 10 ^ shift.toNat) 1
  else mkRat (sign * mantissa) (10 ^ (-shift).toNat)

/-- The exponent suffix of a JS numeric literal: optional sign then one or
more digits, consuming the whole remainder. -/
def parseExponent : List Char → Option Int
  | [] => none
  | '+' :: rest => if rest ≠ [] ∧ rest.all Char.isDigit then some (digitsVal rest) else none
  | '-' :: rest => if rest ≠ [] ∧ rest.all Char.isDigit then some (-(digitsVal rest : Int)) else none
  | cs => if cs.all Char.isDigit then some (digitsVal cs) else none

/-- Model of the JS `Number(string)` coercion on the decimal fragment of the
grammar: surrounding whitespace is trimmed, the empty string is 0, and a
signed decimal literal with optional fraction and exponent parses exactly;
every other string is NaN, reported as `none`. (The hexadecimal, octal,
binary and Infinity forms of the full JS grammar are not modelled; no value
of that shape appears in the repository's data or tests.) -/
def jsNumber (s : String) : Option ℚ :=
  let cs := (jsTrim s).data
  if cs = [] then some 0
  else
    let (sign, cs1) : Int × List Char :=
      match cs with
      | '-' :: rest => (-1, rest)
      | '+' :: rest => (1, rest)
      | _ => (1, cs)
    let ip := cs1.takeWhile Char.isDigit
    let cs2 := cs1.dropWhile Char.isDigit
    match cs2 with
    | [] => if ip = [] then none else some (decimalToRat sign ip [] 0)
    | '.' :: rest =>
      let fp := rest.takeWhile Char.isDigit
      let cs3 := rest.dropWhile Char.isDigit
      if ip = [] ∧ fp = [] then none
      else
        match cs3 with
        | [] => some (decimalToRat sign ip fp 0)
        | 'e' :: es => (parseExponent es).map (decimalToRat sign ip fp)
        | 'E' :: es => (parseExponent es).map (decimalToRat sign ip fp)
        | _ => none
    | 'e' :: es => if ip = [] then none else (parseExponent es).map (decimalToRat sign ip [] ·)
    | 'E' :: es => if ip = [] then none else (parseExponent es).map (decimalToRat sign ip [] ·)
    | _ => none

/-- Decimal digits of the fractional part num/den (0 ≤ num < den), with fuel
bounding the expansion; any JS double has a finite expansion well inside the
fuel used below. -/
def fracDigitStr (fuel : Nat) (num den : Nat) : String :=
  match fuel with
  | 0 => ""
  | fuel + 1 =>
    if num = 0 then ""
    else String.mk [Char.ofNat (num * 10 / den + 48)] ++ fracDigitStr fuel (num * 10 % den) den

/-- Model of JS number-to-string conversion (template literals, `toString()`):
integers print without a decimal point, other values print their finite
decimal expansion. -/
def jsNumToString (q : ℚ) : String :=
  if q.den = 1 then toString q.num
  else
    let signStr := if q.num < 0 then "-" else ""
    let a : Nat := q.num.natAbs
    signStr ++ toString (a / q.den) ++ "." ++ fracDigitStr 1200 (a % q.den) q.den

/-- Conversion of a value interpolated into a JS template literal, with fuel
for nested arrays (`Array.prototype.toString` joins elements with commas;
null and undefined elements join as empty strings). -/
def jsTmplFuel : Nat → Bool → Json → String
  | _, inArr, .undefined => if inArr then "" else "undefined"
  | _, inArr, .null => if inArr then "" else "null"
  | _, _, .bool b => if b then "true" else "false"
  | _, _, .num q => jsNumToString q
  | _, _, .str s => s
  | 0, _, .arr _ => ""
  | fuel + 1, _, .arr xs => String.intercalate "," (xs.map (jsTmplFuel fuel true))
  | _, _, .obj _ => "[object Object]"

/-- JS `${v}` template interpolation of a value (array nesting deeper than
the fuel bound of 1000 is not modelled; no such value arises here). -/
def jsTemplateToString (v : Json) : String :=
  jsTmplFuel 1000 false v

/-- Sextet value of a base64 alphabet character (standard and URL-safe, as
Node's lenient decoder accepts both); `none` for every other character,
which the lenient decoder skips. -/
def base64Val (c : Char) : Option Nat :=
  if 'A' ≤ c ∧ c ≤ 'Z' then some (c.toNat - 65)
  else if 'a' ≤ c ∧ c ≤ 'z' then some (c.toNat - 97 + 26)
  else if '0' ≤ c ∧ c ≤ '9' then some (c.toNat - 48 + 52)
  else if c = '+' ∨ c = '-' then some 62
  else if c = '/' ∨ c = '_' then some 63
  else none

/-- Bytes of a sextet stream: groups of four sextets give three bytes, a
trailing pair gives one byte and a trailing triple two, and a lone trailing
sextet gives none (the semantics of Node's base64 decoder). -/
def sextetsToBytes : List Nat → List Nat
  | a :: b :: c :: d :: rest =>
    (a * 4 + b / 16) :: ((b % 16) * 16 + c / 4) :: ((c % 4) * 64 + d) :: sextetsToBytes rest
  | [a, b] => [a * 4 + b / 16]
  | [a, b, c] => [a * 4 + b / 16, (b % 16) * 16 + c / 4]
  | _ => []

/-- Model of Node `Buffer.from(s, "base64")`: characters outside the base64
alphabet (padding included) are skipped, then sextets are packed into bytes. -/
def base64Decode (s : String) : List Nat :=
  sextetsToBytes (s.data.filterMap base64Val)

/-- UTF-8 decoding of a byte list with U+FFFD replacement on malformed
sequences, with fuel (an approximation of Node `buf.toString("utf-8")`:
faithful on well-formed input, which is all the claims exercise). -/
def utf8DecodeAux : Nat → List Nat → List Char
  | 0, _ => []
  | _, [] => []
  | fuel + 1, b :: rest =>
    if b < 128 then Char.ofNat b :: utf8DecodeAux fuel rest
    else if 194 ≤ b ∧ b ≤ 223 then
      match rest with
      | b2 :: rest2 =>
        if 128 ≤ b2 ∧ b2 ≤ 191 then
          Char.ofNat ((b - 192) * 64 + (b2 - 128)) :: utf8DecodeAux fuel rest2
        else Char.ofNat 0xFFFD :: utf8DecodeAux fuel rest
      | [] => [Char.ofNat 0xFFFD]
    else if 224 ≤ b ∧ b ≤ 239 then
      match rest with
      | b2 :: b3 :: rest3 =>
        if 128 ≤ b2 ∧ b2 ≤ 191 ∧ 128 ≤ b3 ∧ b3 ≤ 191 then
          Char.ofNat ((b - 224) * 4096 + (b2 - 128) * 64 + (b3 - 128)) :: utf8DecodeAux fuel rest3
        else Char.ofNat 0xFFFD :: utf8DecodeAux fuel rest
      | _ => [Char.ofNat 0xFFFD]
    else if 240 ≤ b ∧ b ≤ 244 then
      match rest with
      | b2 :: b3 :: b4 :: rest4 =>
        if 128 ≤ b2 ∧ b2 ≤ 191 ∧ 128 ≤ b3 ∧ b3 ≤ 191 ∧ 128 ≤ b4 ∧ b4 ≤ 191 then
          Char.ofNat ((b - 240) * 262144 + (b2 - 128) * 4096 + (b3 - 128) * 64 + (b4 - 128))
            :: utf8DecodeAux fuel rest4
        else Char.ofNat 0xFFFD :: utf8DecodeAux fuel rest
      | _ => [Char.ofNat 0xFFFD]
    else Char.ofNat 0xFFFD :: utf8DecodeAux fuel rest

/-- UTF-8 decoding of a byte list to a string. -/
def utf8Decode (bytes : List Nat) : String :=
  String.mk (utf8DecodeAux bytes.length bytes)

/-- Truncation of a rational toward zero: JS `ToIntegerOrInfinity`, applied by
`new Date(ms)` to its millisecond argument. -/
def jsTrunc (q : ℚ) : Int :=
  q.num.tdiv q.den

/-- Two-digit zero-padded decimal rendering. -/
def pad2 (n : Nat) : String :=
  if n < 10 then "0" ++ toString n else toString n

/-- Three-digit zero-padded decimal rendering. -/
def pad3 (n : Nat) : String :=
  if n < 10 then "00" ++ toString n
  else if n < 100 then "0" ++ toString n
  else toString n

/-- Year rendering of `Date.toISOString`: four digits for 0..9999, the
expanded six-digit signed form outside that range. -/
def padYear (y : Int) : String :=
  if 0 ≤ y ∧ y ≤ 9999 then
    let s := toString y.toNat
    String.mk (List.replicate (4 - s.length) '0') ++ s
  else
    let sign := if y < 0 then "-" else "+"
    let s := toString y.natAbs
    sign ++ String.mk (List.replicate (6 - s.length) '0') ++ s

/-- Proleptic Gregorian date (year, month, day) of a day number relative to
1970-01-01 (the standard civil-from-days algorithm). -/
def civilFromDays (z0 : Int) : Int × Nat × Nat :=
  let z := z0 + 719468
  let era : Int := z.ediv 146097
  let doe : Nat := (z.emod 146097).toNat
  let yoe : Nat := (doe - doe / 1460 + doe / 36524 - doe / 146096) / 365
  let y : Int := yoe + era * 400
  let doy : Nat := doe - (365 * yoe + yoe / 4 - yoe / 100)
  let mp : Nat := (5 * doy + 2) / 153
  let d : Nat := doy - (153 * mp + 2) / 5 + 1
  let m : Nat := if mp < 10 then mp + 3 else mp - 9
  (if m ≤ 2 then y + 1 else y, m, d)

/-- Model of JS `new Date(ms).toISOString()` for an epoch-millisecond
argument inside the valid Date range. -/
def toISOString (msq : ℚ) : String :=
  let t : Int := jsTrunc msq
  let days : Int := t.ediv 86400000
  let msOfDay : Nat := (t.emod 86400000).toNat
  let ymd := civilFromDays days
  let hh := msOfDay / 3600000
  let mi := msOfDay % 3600000 / 60000
  let ss := msOfDay % 60000 / 1000
  let ms := msOfDay % 1000
  padYear ymd.1 ++ "-" ++ pad2 ymd.2.1 ++ "-" ++ pad2 ymd.2.2 ++ "T" ++
    pad2 hh ++ ":" ++ pad2 mi ++ ":" ++ pad2 ss ++ "." ++ pad3 ms ++ "Z"

/-- An allowlist entry: an exact literal path, or a pattern standing for a
source regex of the shape `^<pre>\d+<suf>$` (every templated entry of the
source has exactly one `\d+` segment). -/
inductive PathPattern where
  | lit (s : String)
  | digitsBetween (pre suf : String)

/-- Matching a path against one allowlist entry: literal entries compare for
exact string equality; a templated entry matches when the path is the prefix,
then one or more decimal digits, then the suffix. -/
def matchesPattern : PathPattern → String → Bool
  | .lit s, p => p == s
  | .digitsBetween pre suf, p =>
    pre.data.isPrefixOf p.data &&
    (let rest := p.data.drop pre.data.length
     let midLen := rest.length - suf.data.length
     decide (0 < midLen) && rest.drop midLen == suf.data &&
       (rest.take midLen).all Char.isDigit)

/-- The static allowlist ALLOWED_PATHS of vrm-client.ts, in source order. -/
def ALLOWED_PATHS : List PathPattern := [
  .lit "/users/me",
  .digitsBetween "/users/" "/installations",
  .digitsBetween "/installations/" "/system-overview",
  .digitsBetween "/installations/" "/stats",
  .digitsBetween "/installations/" "/overallstats",
  .digitsBetween "/installations/" "/alarms",
  .digitsBetween "/installations/" "/diagnostics",
  .digitsBetween "/installations/" "/widgets/Graph",
  .lit "/auth/loginAsDemo",
  .lit "/auth/logout",
  .digitsBetween "/users/" "/search",
  .digitsBetween "/installations/" "/data-download",
  .digitsBetween "/installations/" "/gps-download",
  .digitsBetween "/installations/" "/tags",
  .digitsBetween "/installations/" "/custom-widget",
  .digitsBetween "/installations/" "/dynamic-ess-settings",
  .digitsBetween "/installations/" "/reset-forecasts",
  .digitsBetween "/installations/" "/widgets/VeBusState",
  .digitsBetween "/installations/" "/widgets/InverterChargerState",
  .digitsBetween "/installations/" "/widgets/ChargerRelayState",
  .digitsBetween "/installations/" "/widgets/SolarChargerRelayState",
  .digitsBetween "/installations/" "/widgets/GatewayRelayState",
  .digitsBetween "/installations/" "/widgets/GatewayRelayTwoState",
  .digitsBetween "/installations/" "/widgets/Status",
  .digitsBetween "/installations/" "/widgets/VeBusWarningsAndAlarms",
  .digitsBetween "/installations/" "/widgets/InverterChargerWarningsAndAlarms",
  .digitsBetween "/installations/" "/widgets/BatterySummary",
  .digitsBetween "/installations/" "/widgets/SolarChargerSummary",
  .digitsBetween "/installations/" "/widgets/EvChargerSummary",
  .digitsBetween "/installations/" "/widgets/GlobalLinkSummary",
  .digitsBetween "/installations/" "/widgets/MotorSummary",
  .digitsBetween "/installations/" "/widgets/PVInverterStatus",
  .digitsBetween "/installations/" "/widgets/TankSummary",
  .digitsBetween "/installations/" "/widgets/TempSummaryAndGraph",
  .digitsBetween "/installations/" "/widgets/DCMeter",
  .digitsBetween "/installations/" "/widgets/BMSDiagnostics",
  .digitsBetween "/installations/" "/widgets/LithiumBMS",
  .digitsBetween "/installations/" "/widgets/HistoricData",
  .digitsBetween "/installations/" "/widgets/IOExtenderInOut",
  .lit "/data-attributes",
  .lit "/firmwares"
]

/-- The private isAllowedPath check of VRMClient: some allowlist entry
matches the path. -/
def isAllowedPath (path : String) : Bool :=
  ALLOWED_PATHS.any (fun pattern => matchesPattern pattern path)

/-- The error descriptor of an envelope. The message is a `Json` value
because the 400/422 branch copies `body.message` through untyped. -/
structure VRMError where
  code : String
  message : Json

/-- The meta block of an envelope. -/
structure VRMMeta where
  status : Nat
  durationMs : Nat
  rateLimited : Bool
  note : Option String := none

/-- The uniform response envelope VRMResponse of schemas.ts. -/
structure VRMResponse where
  ok : Bool
  source : String
  endpoint : String
  requestId : String
  fetchedAt : String
  data : Json
  meta : VRMMeta
  error : Option VRMError := none

/-- The outcome of one fetch of the underlying HTTP transport: either a
thrown transport exception (`some msg` an Error with that message, `none`
a thrown non-Error value), or a response with a status code and the body
that `response.json()` produced (the dispatcher's `.catch` substitutes `{}`
when the body is not JSON, so a body is always available). -/
inductive HttpOutcome where
  | exn (errMessage : Option String)
  | resp (status : Nat) (body : Json)

/-- The per-call ambient data of one vrmGet: `crypto.randomUUID()`, the
`fetchedAt` timestamp and the measured duration. -/
structure CallEnv where
  requestId : String
  fetchedAt : String
  durationMs : Nat

/-- The fetch `Response.ok` flag: status in the range 200..299. -/
def statusOk (status : Nat) : Bool :=
  200 ≤ status && status ≤ 299

/-- Whether a value is JS `null`. -/
def jsIsNull : Json → Bool
  | .null => true
  | _ => false

/-- The message of the TypeError V8/Node raises for the plain property
access `body.message` when `body` is null (vrm-client.ts line 125 reads
`body.message` without optional chaining, so a 400/422 response whose JSON
body is the literal `null` throws inside the try block and is classified by
the catch block as a network error). -/
def nullMessageTypeError : String :=
  "Cannot read properties of null (reading 'message')"

/-- The body of vrmGet after the fetch resolves (vrm-client.ts lines
104-182): the try branch classifies the HTTP status into the envelope, the
catch branch produces the network_error envelope with status 0. One throw is
reachable inside the try branch itself: the 400/422 arm reads `body.message`
with a plain (non-optional-chaining) access, which throws a TypeError when
the parsed body is null; that exception falls through to the catch block.
(Property access on primitives does not throw in JS, and the body is never
`undefined`: a non-JSON body is replaced by `{}` by the `.catch` on
`response.json()`.) -/
def handleOutcome (env : CallEnv) (path : String) : HttpOutcome → VRMResponse
  | .exn errMessage =>
    { ok := false
      source := "vrm"
      endpoint := path
      requestId := env.requestId
      fetchedAt := env.fetchedAt
      data := Json.null
      meta := { status := 0, durationMs := env.durationMs, rateLimited := false }
      error := some
        { code := "network_error"
          message := Json.str (match errMessage with
            | some m => m
            | none => "Network request failed") } }
  | .resp status body =>
    if statusOk status then
      { ok := true
        source := "vrm"
        endpoint := path
        requestId := env.requestId
        fetchedAt := env.fetchedAt
        data := (let records := jsGet body "records"
                 if jsTruthy records then records else body)
        meta := { status := status, durationMs := env.durationMs, rateLimited := false } }
    else if (status == 422 || status == 400) && jsIsNull body then
      { ok := false
        source := "vrm"
        endpoint := path
        requestId := env.requestId
        fetchedAt := env.fetchedAt
        data := Json.null
        meta := { status := 0, durationMs := env.durationMs, rateLimited := false }
        error := some
          { code := "network_error"
            message := Json.str nullMessageTypeError } }
    else
      let errPair : String × Json :=
        if status = 401 ∨ status = 403 then
          ("auth", Json.str "Authentication failed. Please check your VRM_TOKEN.")
        else if status = 404 then
          ("not_found", Json.str ("Resource not found: " ++ path))
        else if status = 422 ∨ status = 400 then
          ("bad_request",
            let m := jsGet body "message"
            if jsTruthy m then m else Json.str "Invalid request parameters")
        else if status = 429 then
          ("rate_limited", Json.str "Rate limited. Please try again later.")
        else
          ("unknown_error", Json.str ("HTTP " ++ toString status))
      { ok := false
        source := "vrm"
        endpoint := path
        requestId := env.requestId
        fetchedAt := env.fetchedAt
        data := body
        meta := { status := status, durationMs := env.durationMs, rateLimited := status == 429 }
        error := some { code := errPair.1, message := errPair.2 } }

/-- The private vrmGet of VRMClient: the allowlist check throws (Except.error)
before anything else happens; only an allowed path consumes the HTTP outcome.
The query list records the URLSearchParams appended to the URL, in append
order. -/
def vrmGet (env : CallEnv) (path : String) (query : List (String × String))
    (outcome : HttpOutcome) : Except String VRMResponse :=
  if isAllowedPath path then Except.ok (handleOutcome env path outcome)
  else Except.error ("Disallowed path: " ++ path)

/-- getUserMe: vrmGet on the literal /users/me path with no query. -/
def getUserMe (env : CallEnv) (outcome : HttpOutcome) : Except String VRMResponse :=
  vrmGet env "/users/me" [] outcome

/-- Validated arguments of vrm_list_installations. -/
structure ListInstallationsParams where
  idUser : Option ℚ := none
  extended : Option Bool := none

/-- The query of listInstallations: `extended=1` exactly when the extended
flag is truthy. -/
def extendedQuery (params : ListInstallationsParams) : List (String × String) :=
  match params.extended with
  | some true => [("extended", "1")]
  | _ => []

/-- listInstallations: when idUser is falsy the current-user call runs first;
a failed or idUser-less current-user response is returned with the error
descriptor overridden by user_fetch_failed (spread keeps every other field);
otherwise the extracted id is substituted into the installations path. -/
def listInstallations (envUser envInst : CallEnv) (params : ListInstallationsParams)
    (userOutcome instOutcome : HttpOutcome) : Except String VRMResponse :=
  let idUser0 : Json := match params.idUser with
    | some q => Json.num q
    | none => Json.undefined
  if jsTruthy idUser0 then
    vrmGet envInst ("/users/" ++ jsTemplateToString idUser0 ++ "/installations")
      (extendedQuery params) instOutcome
  else
    match getUserMe envUser userOutcome with
    | Except.error e => Except.error e
    | Except.ok userResponse =>
      if !userResponse.ok || !jsTruthy (jsGet userResponse.data "idUser") then
        Except.ok { userResponse with
          error := some { code := "user_fetch_failed", message := Json.str "Failed to fetch user ID" } }
      else
        vrmGet envInst
          ("/users/" ++ jsTemplateToString (jsGet userResponse.data "idUser") ++ "/installations")
          (extendedQuery params) instOutcome

/-- Validated arguments of vrm_get_stats. -/
structure StatsParams where
  siteId : ℚ
  type : String
  interval : Option String := none
  start : Option ℚ := none
  «end» : Option ℚ := none

/-- The query of getStats: type, then interval (defaulted to 15mins by the
truthiness of the supplied value), then start/end when supplied. -/
def statsQuery (params : StatsParams) : List (String × String) :=
  [("type", params.type)] ++
  [("interval", match params.interval with
    | some i => if i == "" then "15mins" else i
    | none => "15mins")] ++
  (match params.start with
    | some s => [("start", jsNumToString s)]
    | none => []) ++
  (match params.«end» with
    | some e => [("end", jsNumToString e)]
    | none => [])

/-- getStats. -/
def getStats (env : CallEnv) (params : StatsParams) (outcome : HttpOutcome) :
    Except String VRMResponse :=
  vrmGet env ("/installations/" ++ jsNumToString params.siteId ++ "/stats")
    (statsQuery params) outcome

/-- Validated arguments of vrm_get_overall_stats. -/
structure OverallStatsParams where
  siteId : ℚ
  type : Option String := none
  attributeCodes : List String
  start : Option ℚ := none
  «end» : Option ℚ := none

/-- The effective period type of getOverallStats: `params.type || "custom"`. -/
def overallStatsType (params : OverallStatsParams) : String :=
  match params.type with
  | some t => if t == "" then "custom" else t
  | none => "custom"

/-- The query of getOverallStats: type, the attribute codes as repeated
array parameters in order, and start/end only when supplied AND the
effective type is custom. -/
def overallStatsQuery (params : OverallStatsParams) : List (String × String) :=
  [("type", overallStatsType params)] ++
  params.attributeCodes.map (fun code => ("attributeCodes[]", code)) ++
  (match params.start with
    | some s => if overallStatsType params == "custom" then [("start", jsNumToString s)] else []
    | none => []) ++
  (match params.«end» with
    | some e => if overallStatsType params == "custom" then [("end", jsNumToString e)] else []
    | none => [])

/-- The timezone advisory note of getOverallStats. -/
def tzNote : String :=
  "Time periods like 'today' may be calculated relative to UTC or server timezone, not the installation's local timezone."

/-- getOverallStats: the call, then on a successful response with a relative
period type the timezone advisory note is attached to meta. -/
def getOverallStats (env : CallEnv) (params : OverallStatsParams) (outcome : HttpOutcome) :
    Except String VRMResponse :=
  match vrmGet env ("/installations/" ++ jsNumToString params.siteId ++ "/overallstats")
      (overallStatsQuery params) outcome with
  | Except.error e => Except.error e
  | Except.ok response =>
    let t := overallStatsType params
    if response.ok && (t == "today" || t == "yesterday" || t == "month" || t == "year") then
      Except.ok { response with meta := { response.meta with note := some tzNote } }
    else
      Except.ok response

/-- Validated arguments of vrm_get_alarms. -/
structure AlarmsParams where
  siteId : ℚ
  activeOnly : Option Bool := none
  page : Option ℚ := none
  pageSize : Option ℚ := none

/-- The query of getAlarms: activeOnly=true exactly when the flag is truthy
(a supplied false is NOT emitted), page and pageSize whenever supplied. -/
def alarmsQuery (params : AlarmsParams) : List (String × String) :=
  (match params.activeOnly with
    | some true => [("activeOnly", "true")]
    | _ => []) ++
  (match params.page with
    | some p => [("page", jsNumToString p)]
    | none => []) ++
  (match params.pageSize with
    | some p => [("pageSize", jsNumToString p)]
    | none => [])

/-- getAlarms. -/
def getAlarms (env : CallEnv) (params : AlarmsParams) (outcome : HttpOutcome) :
    Except String VRMResponse :=
  vrmGet env ("/installations/" ++ jsNumToString params.siteId ++ "/alarms")
    (alarmsQuery params) outcome

/-- Validated arguments of vrm_get_diagnostics. -/
structure DiagnosticsParams where
  siteId : ℚ
  count : Option ℚ := none
  offset : Option ℚ := none

/-- The query of getDiagnostics: count defaulted to 200 by truthiness, then
offset when supplied. -/
def diagnosticsQuery (params : DiagnosticsParams) : List (String × String) :=
  [("count", jsNumToString (match params.count with
    | some c => if c == 0 then 200 else c
    | none => 200))] ++
  (match params.offset with
    | some o => [("offset", jsNumToString o)]
    | none => [])

/-- getDiagnostics. -/
def getDiagnostics (env : CallEnv) (params : DiagnosticsParams) (outcome : HttpOutcome) :
    Except String VRMResponse :=
  vrmGet env ("/installations/" ++ jsNumToString params.siteId ++ "/diagnostics")
    (diagnosticsQuery params) outcome

/-- Validated arguments of vrm_download_installation_data. -/
structure DownloadParams where
  siteId : ℚ
  start : Option ℚ := none
  «end» : Option ℚ := none
  datatype : Option String := none
  format : Option String := none
  decode : Option Bool := none

/-- The effective datatype: `params.datatype || "log"`. -/
def downloadDatatype (params : DownloadParams) : String :=
  match params.datatype with
  | some d => if d == "" then "log" else d
  | none => "log"

/-- The effective format: `params.format || "csv"`. -/
def downloadFormat (params : DownloadParams) : String :=
  match params.format with
  | some f => if f == "" then "csv" else f
  | none => "csv"

/-- The effective decode flag: the supplied value when defined, else true. -/
def downloadDecode (params : DownloadParams) : Bool :=
  match params.decode with
  | some b => b
  | none => true

/-- The query of downloadInstallationData: datatype and format always (with
their defaults applied), start/end when supplied. -/
def downloadQuery (params : DownloadParams) : List (String × String) :=
  [("datatype", downloadDatatype params), ("format", downloadFormat params)] ++
  (match params.start with
    | some s => [("start", jsNumToString s)]
    | none => []) ++
  (match params.«end» with
    | some e => [("end", jsNumToString e)]
    | none => [])

/-- One CSV record: the line is split on commas, each value is paired
positionally with its header, trimmed, and coerced to a number when
`Number(value)` is not NaN; a missing value (fewer cells than headers)
stays JS `undefined`. Keys are the trimmed headers. -/
def csvRecord (headers : List String) (line : String) : Json :=
  let values := jsSplit ',' line
  Json.obj (headers.enum.map (fun hi =>
    (jsTrim hi.2,
      match values.get? hi.1 with
      | none => Json.undefined
      | some v0 =>
        let v := jsTrim v0
        match jsNumber v with
        | some q => Json.num q
        | none => Json.str v)))

/-- CSV parsing of the decoded text: split into lines discarding blank
lines, the first line is the comma-separated header row, the rest become
records. Returns (headers, records). -/
def csvParseString (csvString : String) : List String × List Json :=
  let lines := (jsSplit '\n' csvString).filter (fun line => jsTrim line ≠ "")
  let headers := match lines with
    | [] => []
    | l0 :: _ => jsSplit ',' l0
  (headers, (lines.drop 1).map (csvRecord headers))

/-- The byte an array element contributes under Node's array-like buffer
construction: `ToUint8(ToNumber(element))`, with NaN becoming 0. An array
element coerces through its joined string form (JS `ToPrimitive`); a plain
object coerces to the string "[object Object]", which is NaN, hence 0. -/
def jsByteOf : Json → Nat
  | .num q => ((jsTrunc q).emod 256).toNat
  | .bool b => if b then 1 else 0
  | .null => 0
  | .undefined => 0
  | .str s =>
    (match jsNumber s with
      | some q => ((jsTrunc q).emod 256).toNat
      | none => 0)
  | .arr xs =>
    (match jsNumber (jsTemplateToString (Json.arr xs)) with
      | some q => ((jsTrunc q).emod 256).toNat
      | none => 0)
  | .obj _ => 0

/-- Model of Node `Buffer.from(data, "base64")` on a JSON value; `none`
models a thrown TypeError/RangeError. A string decodes leniently as base64.
An array is taken as a byte array (the encoding argument is ignored), each
element coerced by `jsByteOf`. An object with a `length` property is
array-like: a non-number length gives an empty buffer, a non-negative
integer length n reads the index properties "0".."n-1" (absent indices give
byte 0), a negative length gives an empty buffer, and a fractional length
throws a RangeError; an object without a length property is accepted only in
Node's Buffer-JSON shape `{type: "Buffer", data: [...]}`, and otherwise
throws a TypeError — as does every other value (null, numbers, booleans).
(Engine allocation limits for astronomically large lengths are not
modelled.) -/
def bufferFromBase64 : Json → Option (List Nat)
  | .str s => some (base64Decode s)
  | .arr xs => some (xs.map jsByteOf)
  | .obj fields =>
    (match fields.lookup "length" with
      | some (.num q) =>
        if Rat.blt 0 q = false then some []
        else if q.den = 1 then
          some ((List.range q.num.toNat).map (fun i =>
            match fields.lookup (toString i) with
            | some v => jsByteOf v
            | none => 0))
        else none
      | some _ => some []
      | none =>
        (match fields.lookup "type", fields.lookup "data" with
          | some (.str "Buffer"), some (.arr xs) => some (xs.map jsByteOf)
          | _, _ => none))
  | _ => none

/-- The try block of the CSV branch: `Buffer.from(data, "base64")` throws
for data that is neither a string, an array, nor an array-like object
(modelled by `bufferFromBase64`); on a decodable payload the decoded bytes
are read as UTF-8 and the CSV parse itself never throws. -/
def tryParseCsv (data : Json) : Option (List String × List Json) :=
  (bufferFromBase64 data).map (fun bytes => csvParseString (utf8Decode bytes))

/-- An optional epoch-millisecond bound as the Json value echoed in
timeRange (undefined when the argument was omitted). -/
def optNumJson : Option ℚ → Json
  | some q => Json.num q
  | none => Json.undefined

/-- The echoed timeRange of the parsed-CSV result, with ISO-8601 renderings
of the bounds; a bound renders only when truthy (a supplied 0 stays
undefined, mirroring the conditional operator of the source). -/
def downloadTimeRangeFull (params : DownloadParams) : Json :=
  Json.obj [
    ("start", optNumJson params.start),
    ("end", optNumJson params.«end»),
    ("startISO", match params.start with
      | some s => if s == 0 then Json.undefined else Json.str (toISOString s)
      | none => Json.undefined),
    ("endISO", match params.«end» with
      | some e => if e == 0 then Json.undefined else Json.str (toISOString e)
      | none => Json.undefined)]

/-- The synthesized filename of the undecoded wrapping, using `Date.now()`. -/
def downloadFilename (params : DownloadParams) (now : Int) : String :=
  "installation_" ++ jsNumToString params.siteId ++ "_" ++ downloadDatatype params ++
    "_" ++ toString now ++ "." ++ downloadFormat params

/-- The wrapped payload used both by the parse-failure fallback and by the
non-CSV / no-decode branch: the original data under content as base64. -/
def downloadRawData (params : DownloadParams) (now : Int) (originalData : Json) : Json :=
  Json.obj [
    ("format", Json.str (downloadFormat params)),
    ("datatype", Json.str (downloadDatatype params)),
    ("timeRange", Json.obj [
      ("start", optNumJson params.start),
      ("end", optNumJson params.«end»)]),
    ("content", originalData),
    ("encoding", Json.str "base64"),
    ("filename", Json.str (downloadFilename params now))]

/-- The structured payload of a successful CSV parse. -/
def downloadParsedData (params : DownloadParams) (headers : List String)
    (records : List Json) : Json :=
  Json.obj [
    ("format", Json.str (downloadFormat params)),
    ("datatype", Json.str (downloadDatatype params)),
    ("timeRange", downloadTimeRangeFull params),
    ("records", Json.arr records),
    ("summary", Json.obj [
      ("totalRecords", Json.num (mkRat records.length 1)),
      ("columns", Json.arr (headers.map (fun h => Json.str (jsTrim h))))])]

/-- downloadInstallationData: the call, then the response is post-processed.
With a truthy payload, decode requested and format csv, the base64 CSV is
parsed into the structured payload; if the parse throws, the catch returns
the raw wrapping with a parse-failure note instead (never re-raising). Other
formats, or decode=false, get the raw wrapping without a note. -/
def downloadInstallationData (env : CallEnv) (now : Int) (params : DownloadParams)
    (outcome : HttpOutcome) : Except String VRMResponse :=
  match vrmGet env ("/installations/" ++ jsNumToString params.siteId ++ "/data-download")
      (downloadQuery params) outcome with
  | Except.error e => Except.error e
  | Except.ok response =>
    if response.ok && jsTruthy response.data && downloadDecode params &&
        (downloadFormat params == "csv") then
      let originalData := response.data
      match tryParseCsv originalData with
      | some hr =>
        Except.ok { response with
          data := downloadParsedData params hr.1 hr.2
          meta := { response.meta with
            note := some "CSV data parsed into structured format for easier analysis" } }
      | none =>
        Except.ok { response with
          data := downloadRawData params now originalData
          meta := { response.meta with
            note := some "Failed to parse CSV data, returning as base64" } }
    else if response.ok && jsTruthy response.data then
      Except.ok { response with data := downloadRawData params now response.data }
    else
      Except.ok response

/-- A field's accepted shape in a zod tool schema. -/
inductive FieldType where
  | number (lo hi : Option ℚ)
  | string
  | boolean
  | strEnum (vals : List String)
  | strArrayMin (minLen : Nat)

/-- One declared field of a tool schema. -/
structure FieldSpec where
  name : String
  required : Bool
  type : FieldType

/-- A tool's argument schema: its declared fields. Every schema of
schemas.ts is `.strict()`, so the declared set is closed. -/
abbrev ToolSchema := List FieldSpec

/-- The zod check of one field's value. -/
def checkField : FieldType → Json → Bool
  | .number lo hi, .num q =>
    (match lo with
      | some l => Rat.blt l q || l == q
      | none => true) &&
    (match hi with
      | some h => Rat.blt q h || q == h
      | none => true)
  | .number _ _, _ => false
  | .string, .str _ => true
  | .string, _ => false
  | .boolean, .bool _ => true
  | .boolean, _ => false
  | .strEnum vals, .str s => vals.contains s
  | .strEnum _, _ => false
  | .strArrayMin minLen, .arr xs =>
    decide (minLen ≤ xs.length) &&
      xs.all (fun x => match x with
        | .str _ => true
        | _ => false)
  | .strArrayMin _, _ => false

/-- Validation of a raw argument object against a strict schema: every
supplied key must be declared (strict: no passthrough), every required
field must be present, and every supplied value must satisfy its field's
check. -/
def validateArgs (schema : ToolSchema) (args : List (String × Json)) : Bool :=
  args.all (fun kv => schema.any (fun f => f.name == kv.1)) &&
  schema.all (fun f =>
    match args.lookup f.name with
    | none => !f.required
    | some v => checkField f.type v)

/-- The shared siteId field. -/
def siteIdField : FieldSpec := ⟨"siteId", true, .number none none⟩

/-- The shared schema of the widget endpoints: required siteId, optional
instance. -/
def widgetSchema : ToolSchema := [siteIdField, ⟨"instance", false, .number none none⟩]

/-- The toolSchemas table of schemas.ts: every declared operation's strict
argument schema. -/
def toolSchemas : List (String × ToolSchema) := [
  ("vrm_get_user_me", []),
  ("vrm_list_installations",
    [⟨"idUser", false, .number none none⟩, ⟨"extended", false, .boolean⟩]),
  ("vrm_get_system_overview", [siteIdField]),
  ("vrm_get_stats",
    [siteIdField,
     ⟨"type", true, .strEnum ["venus", "live_feed", "consumption", "kwh", "solar_yield", "forecast"]⟩,
     ⟨"interval", false, .string⟩,
     ⟨"start", false, .number none none⟩,
     ⟨"end", false, .number none none⟩]),
  ("vrm_get_overall_stats",
    [siteIdField,
     ⟨"type", false, .strEnum ["custom", "today", "yesterday", "month", "year"]⟩,
     ⟨"attributeCodes", true, .strArrayMin 1⟩,
     ⟨"start", false, .number none none⟩,
     ⟨"end", false, .number none none⟩]),
  ("vrm_get_alarms",
    [siteIdField,
     ⟨"activeOnly", false, .boolean⟩,
     ⟨"page", false, .number (some 1) none⟩,
     ⟨"pageSize", false, .number (some 1) (some 200)⟩]),
  ("vrm_get_diagnostics",
    [siteIdField,
     ⟨"count", false, .number (some 1) (some 1000)⟩,
     ⟨"offset", false, .number (some 0) none⟩]),
  ("vrm_get_widget_graph",
    [siteIdField,
     ⟨"attributeCodes", true, .strArrayMin 1⟩,
     ⟨"instance", true, .number none none⟩]),
  ("vrm_auth_login_as_demo", []),
  ("vrm_auth_logout", []),
  ("vrm_get_user_access_tokens", [⟨"idUser", true, .number none none⟩]),
  ("vrm_search_user_installations",
    [⟨"idUser", true, .number none none⟩,
     ⟨"query", false, .string⟩,
     ⟨"limit", false, .number (some 1) (some 100)⟩]),
  ("vrm_download_installation_data",
    [siteIdField,
     ⟨"start", false, .number none none⟩,
     ⟨"end", false, .number none none⟩,
     ⟨"datatype", false, .strEnum ["log", "benchmark", "kwh"]⟩,
     ⟨"format", false, .strEnum ["csv", "excelxml", "xls", "xlsx"]⟩,
     ⟨"decode", false, .boolean⟩]),
  ("vrm_download_gps_data",
    [siteIdField,
     ⟨"start", false, .number none none⟩,
     ⟨"end", false, .number none none⟩]),
  ("vrm_get_installation_tags", [siteIdField]),
  ("vrm_get_custom_widget", [siteIdField]),
  ("vrm_get_dynamic_ess_settings", [siteIdField]),
  ("vrm_get_data_attributes",
    [⟨"filter", false, .string⟩,
     ⟨"sort", false, .string⟩,
     ⟨"limit", false, .number (some 1) (some 1000)⟩,
     ⟨"offset", false, .number (some 0) none⟩]),
  ("vrm_get_firmwares",
    [⟨"type", false, .string⟩, ⟨"version", false, .string⟩]),
  ("vrm_get_reset_forecasts", [siteIdField]),
  ("vrm_get_vebus_state", widgetSchema),
  ("vrm_get_inverter_charger_state", widgetSchema),
  ("vrm_get_charger_relay_state", widgetSchema),
  ("vrm_get_solar_charger_relay_state", widgetSchema),
  ("vrm_get_gateway_relay_state", widgetSchema),
  ("vrm_get_gateway_relay_two_state", widgetSchema),
  ("vrm_get_status_widget", widgetSchema),
  ("vrm_get_vebus_warnings_alarms", widgetSchema),
  ("vrm_get_inverter_charger_warnings_alarms", widgetSchema),
  ("vrm_get_battery_summary", widgetSchema),
  ("vrm_get_solar_charger_summary", widgetSchema),
  ("vrm_get_ev_charger_summary", widgetSchema),
  ("vrm_get_global_link_summary", widgetSchema),
  ("vrm_get_motor_summary", widgetSchema),
  ("vrm_get_pv_inverter_status", widgetSchema),
  ("vrm_get_tank_summary", widgetSchema),
  ("vrm_get_temp_summary_graph", widgetSchema),
  ("vrm_get_dc_meter", widgetSchema),
  ("vrm_get_bms_diagnostics", widgetSchema),
  ("vrm_get_lithium_bms", widgetSchema),
  ("vrm_get_historic_data", widgetSchema),
  ("vrm_get_io_extender", widgetSchema)]
/-- Validated arguments of vrm_search_user_installations. -/
structure SearchUserParams where
  idUser : ℚ
  query : Option String := none
  limit : Option ℚ := none

/-- The query of searchUserInstallations: query and limit are appended only
when truthy (a supplied empty query or zero limit is dropped by the
source's if (params.query) / if (params.limit) tests). -/
def searchUserQuery (params : SearchUserParams) : List (String × String) :=
  (match params.query with
    | some q => if q == "" then [] else [("query", q)]
    | none => []) ++
  (match params.limit with
    | some l => if l == 0 then [] else [("limit", jsNumToString l)]
    | none => [])

/-- searchUserInstallations. -/
def searchUserInstallations (env : CallEnv) (params : SearchUserParams)
    (outcome : HttpOutcome) : Except String VRMResponse :=
  vrmGet env ("/users/" ++ jsNumToString params.idUser ++ "/search")
    (searchUserQuery params) outcome

/-- Validated arguments of vrm_download_gps_data. -/
structure GpsDownloadParams where
  siteId : ℚ
  start : Option ℚ := none
  «end» : Option ℚ := none

/-- The query of downloadGpsData: start/end whenever supplied. -/
def gpsDownloadQuery (params : GpsDownloadParams) : List (String × String) :=
  (match params.start with
    | some s => [("start", jsNumToString s)]
    | none => []) ++
  (match params.«end» with
    | some e => [("end", jsNumToString e)]
    | none => [])

/-- downloadGpsData. -/
def downloadGpsData (env : CallEnv) (params : GpsDownloadParams)
    (outcome : HttpOutcome) : Except String VRMResponse :=
  vrmGet env ("/installations/" ++ jsNumToString params.siteId ++ "/gps-download")
    (gpsDownloadQuery params) outcome

/-- Validated arguments of vrm_get_data_attributes. -/
structure DataAttributesParams where
  filter : Option String := none
  sort : Option String := none
  limit : Option ℚ := none
  offset : Option ℚ := none

/-- The query of getDataAttributes: filter, sort and limit only when truthy,
offset whenever supplied. -/
def dataAttributesQuery (params : DataAttributesParams) : List (String × String) :=
  (match params.filter with
    | some f => if f == "" then [] else [("filter", f)]
    | none => []) ++
  (match params.sort with
    | some s => if s == "" then [] else [("sort", s)]
    | none => []) ++
  (match params.limit with
    | some l => if l == 0 then [] else [("limit", jsNumToString l)]
    | none => []) ++
  (match params.offset with
    | some o => [("offset", jsNumToString o)]
    | none => [])

/-- getDataAttributes. -/
def getDataAttributes (env : CallEnv) (params : DataAttributesParams)
    (outcome : HttpOutcome) : Except String VRMResponse :=
  vrmGet env "/data-attributes" (dataAttributesQuery params) outcome

/-- Validated arguments of vrm_get_firmwares. -/
structure FirmwaresParams where
  type : Option String := none
  version : Option String := none

/-- The query of getFirmwares: type and version only when truthy. -/
def firmwaresQuery (params : FirmwaresParams) : List (String × String) :=
  (match params.type with
    | some t => if t == "" then [] else [("type", t)]
    | none => []) ++
  (match params.version with
    | some v => if v == "" then [] else [("version", v)]
    | none => [])

/-- getFirmwares. -/
def getFirmwares (env : CallEnv) (params : FirmwaresParams)
    (outcome : HttpOutcome) : Except String VRMResponse :=
  vrmGet env "/firmwares" (firmwaresQuery params) outcome

/-- Validated arguments shared by the twenty widget endpoints (states,
warnings, summaries, diagnostics, historic data, IO extender): required
siteId, optional instance. -/
structure InstanceParams where
  siteId : ℚ
  «instance» : Option ℚ := none

/-- The query body repeated verbatim in each of the twenty widget endpoint
methods of the source: instance whenever supplied. -/
def instanceQuery (params : InstanceParams) : List (String × String) :=
  match params.«instance» with
  | some i => [("instance", jsNumToString i)]
  | none => []

/-- The shared shape of the twenty widget endpoint methods (getVeBusState
through getIoExtender): each instantiates this with its widget name as the
path's last segment. -/
def getWidgetEndpoint (env : CallEnv) (widgetName : String) (params : InstanceParams)
    (outcome : HttpOutcome) : Except String VRMResponse :=
  vrmGet env ("/installations/" ++ jsNumToString params.siteId ++ "/widgets/" ++ widgetName)
    (instanceQuery params) outcome

/-- A fixed concrete call environment used by witnesses and counterexamples. -/
def wEnv : CallEnv := ⟨"req-1", "1970-01-01T00:00:00.000Z", 5⟩

/-- C1: a path matching no allowlist entry makes vrmGet throw the disallowed-path
exception, with a result independent of the HTTP outcome: no network I/O is
observed, so a disallowed path never reaches the network layer. -/
theorem vrmGet_disallowed_path_throws (env : CallEnv) (path : String)
    (query : List (String × String)) (h : isAllowedPath path = false) :
    ∀ outcome : HttpOutcome,
      vrmGet env path query outcome = Except.error ("Disallowed path: " ++ path) := by
  intro outcome
  simp [vrmGet, h]

theorem vrmGet_disallowed_path_throws_witness :
    vrmGet wEnv "/invalid/path" [] (.resp 200 Json.null) =
      Except.error "Disallowed path: /invalid/path" :=
  vrmGet_disallowed_path_throws wEnv "/invalid/path" [] (by decide) (.resp 200 Json.null)

/-- C6 counterexample: a 2xx body whose records field is present but falsy
(here the number 0) is NOT unwrapped: the payload is the whole body, not the
records value, refuting the claim that a present records field is always
unwrapped. -/
theorem records_present_falsy_not_unwrapped :
    (handleOutcome wEnv "/users/me" (.resp 200 (Json.obj [("records", Json.num (mkRat 0 1))]))).data =
      Json.obj [("records", Json.num (mkRat 0 1))] ∧
    jsGet (Json.obj [("records", Json.num (mkRat 0 1))]) "records" = Json.num (mkRat 0 1) ∧
    Json.obj [("records", Json.num (mkRat 0 1))] ≠ Json.num (mkRat 0 1) :=
  ⟨rfl, rfl, fun h => Json.noConfusion h⟩

/-- C6 (amended): on a 2xx response the payload is the body's top-level
records field when that field is present AND truthy, and the whole body
otherwise (absent or falsy records field). -/
theorem success_payload_unwraps_truthy_records (env : CallEnv) (path : String)
    (status : Nat) (body : Json) (hs : statusOk status = true) :
    (jsTruthy (jsGet body "records") = true →
      (handleOutcome env path (.resp status body)).data = jsGet body "records") ∧
    (jsTruthy (jsGet body "records") = false →
      (handleOutcome env path (.resp status body)).data = body) := by
  constructor <;> intro h <;> simp [handleOutcome, hs, h]

theorem success_payload_unwraps_truthy_records_witness :
    (handleOutcome wEnv "/users/me" (.resp 200 (Json.obj [("records", Json.arr [])]))).data =
      Json.arr [] :=
  (success_payload_unwraps_truthy_records wEnv "/users/me" 200
    (Json.obj [("records", Json.arr [])]) rfl).1 rfl

/-- C7: every strict tool schema rejects an argument object containing an
undeclared field, whatever the other fields hold: no undeclared field ever
survives validation. -/
theorem strict_schemas_reject_undeclared (name : String) (schema : ToolSchema)
    (hdecl : (name, schema) ∈ toolSchemas) (args : List (String × Json))
    (k : String) (v : Json) (hk : (k, v) ∈ args)
    (hundeclared : schema.all (fun f => !(f.name == k)) = true) :
    validateArgs schema args = false := by
  have hany : schema.any (fun f => f.name == k) = false := by
    rw [Bool.eq_false_iff]
    intro hcontra
    rw [List.any_eq_true] at hcontra
    obtain ⟨f, hf, hfk⟩ := hcontra
    have hne := List.all_eq_true.mp hundeclared f hf
    rw [hfk] at hne
    exact Bool.false_ne_true hne
  have hall : args.all (fun kv => schema.any (fun f => f.name == kv.1)) = false := by
    rw [Bool.eq_false_iff]
    intro hcontra
    have hmem := List.all_eq_true.mp hcontra (k, v) hk
    rw [hany] at hmem
    exact Bool.false_ne_true hmem
  simp [validateArgs, hall]

theorem strict_schemas_reject_undeclared_witness :
    validateArgs [] [("bogus", Json.null)] = false :=
  strict_schemas_reject_undeclared "vrm_get_user_me" [] (by simp [toolSchemas])
    [("bogus", Json.null)] "bogus" Json.null (by simp) rfl

/-- C2 counterexample: with status 400 and a body whose message field is
present but empty, the envelope's error message is the generic advisory, not
the body's message field, refuting the claim that a present message field is
always used. -/
theorem bad_request_present_empty_message_not_used :
    (handleOutcome wEnv "/x" (.resp 400 (Json.obj [("message", Json.str "")]))).error =
      some { code := "bad_request", message := Json.str "Invalid request parameters" } ∧
    jsGet (Json.obj [("message", Json.str "")]) "message" = Json.str "" ∧
    Json.str "Invalid request parameters" ≠ Json.str "" :=
  ⟨rfl, rfl, fun h => by injection h with h'; exact absurd h' (by decide)⟩


/-- C2 (amended): the envelope's outcome classification is a uniform function
of the HTTP outcome. A transport exception gives ok=false, network_error,
status 0 and the exception's message; 401/403 give auth with the fixed
credentials advisory; 404 gives not_found naming the path; 400/422 with a
non-null JSON body give bad_request with the body's message field when that
field is truthy and the generic message otherwise, while 400/422 with a null
JSON body make the plain body.message access throw, yielding a network_error
envelope with meta.status 0; 429 gives rate_limited; any other non-2xx gives
unknown_error "HTTP status"; any 2xx gives ok=true with no error; and
meta.rateLimited is true exactly when the remote status was 429. -/
theorem handleOutcome_outcome_classification (env : CallEnv) (path : String) :
    (∀ errMessage,
      (handleOutcome env path (.exn errMessage)).ok = false ∧
      (handleOutcome env path (.exn errMessage)).meta.status = 0 ∧
      (handleOutcome env path (.exn errMessage)).meta.rateLimited = false ∧
      (handleOutcome env path (.exn errMessage)).error =
        some { code := "network_error",
               message := Json.str (errMessage.getD "Network request failed") }) ∧
    (∀ status body, statusOk status = true →
      (handleOutcome env path (.resp status body)).ok = true ∧
      (handleOutcome env path (.resp status body)).error = none ∧
      (handleOutcome env path (.resp status body)).meta.status = status) ∧
    (∀ status body,
      (handleOutcome env path (.resp status body)).meta.rateLimited = (status == 429)) ∧
    (∀ status body, statusOk status = false →
      (handleOutcome env path (.resp status body)).ok = false ∧
      (handleOutcome env path (.resp status body)).data = body ∧
      (¬((status = 400 ∨ status = 422) ∧ jsIsNull body = true) →
        (handleOutcome env path (.resp status body)).meta.status = status) ∧
      ((status = 401 ∨ status = 403) →
        (handleOutcome env path (.resp status body)).error =
          some { code := "auth",
                 message := Json.str "Authentication failed. Please check your VRM_TOKEN." }) ∧
      (status = 404 →
        (handleOutcome env path (.resp status body)).error =
          some { code := "not_found", message := Json.str ("Resource not found: " ++ path) }) ∧
      ((status = 400 ∨ status = 422) → jsIsNull body = false →
          jsTruthy (jsGet body "message") = true →
        (handleOutcome env path (.resp status body)).error =
          some { code := "bad_request", message := jsGet body "message" }) ∧
      ((status = 400 ∨ status = 422) → jsIsNull body = false →
          jsTruthy (jsGet body "message") = false →
        (handleOutcome env path (.resp status body)).error =
          some { code := "bad_request", message := Json.str "Invalid request parameters" }) ∧
      ((status = 400 ∨ status = 422) → jsIsNull body = true →
        (handleOutcome env path (.resp status body)).error =
          some { code := "network_error", message := Json.str nullMessageTypeError } ∧
        (handleOutcome env path (.resp status body)).meta.status = 0) ∧
      (status = 429 →
        (handleOutcome env path (.resp status body)).error =
          some { code := "rate_limited", message := Json.str "Rate limited. Please try again later." }) ∧
      (status ≠ 401 → status ≠ 403 → status ≠ 404 → status ≠ 400 → status ≠ 422 → status ≠ 429 →
        (handleOutcome env path (.resp status body)).error =
          some { code := "unknown_error", message := Json.str ("HTTP " ++ toString status) })) := by
  refine ⟨fun errMessage => ?_, fun status body hs => ?_, fun status body => ?_,
    fun status body hs => ?_⟩
  · cases errMessage <;> exact ⟨rfl, rfl, rfl, rfl⟩
  · simp [handleOutcome, hs]
  · by_cases hs : statusOk status = true
    · have hrange : 200 ≤ status ∧ status ≤ 299 := by simpa [statusOk] using hs
      have h429 : (status == 429) = false := by simp; omega
      simp [handleOutcome, hs, h429]
    · rw [Bool.not_eq_true] at hs
      by_cases hb : ((status == 422 || status == 400) && jsIsNull body) = true
      · have hst := hb
        simp only [Bool.and_eq_true, Bool.or_eq_true, beq_iff_eq] at hst
        rcases hst.1 with h | h <;> subst h <;>
          simp [handleOutcome, hs, hb] <;> split <;> rfl
      · rw [Bool.not_eq_true] at hb
        simp [handleOutcome, hs, hb]
  · have hguard : ∀ hg : ((status == 422 || status == 400) && jsIsNull body) = true,
        (status = 400 ∨ status = 422) ∧ jsIsNull body = true := by
      intro hg
      simp only [Bool.and_eq_true, Bool.or_eq_true, beq_iff_eq] at hg
      exact ⟨hg.1.elim Or.inr Or.inl, hg.2⟩
    refine ⟨?_, ?_, ?_, ?_, ?_, ?_, ?_, ?_, ?_, ?_⟩
    · by_cases hb : ((status == 422 || status == 400) && jsIsNull body) = true
      · simp [handleOutcome, hs, hb]
      · rw [Bool.not_eq_true] at hb
        simp [handleOutcome, hs, hb]
    · by_cases hb : ((status == 422 || status == 400) && jsIsNull body) = true
      · have hnull := (hguard hb).2
        have hbody : body = Json.null := by
          cases body <;> simp [jsIsNull] at hnull <;> rfl
        subst hbody
        simp [handleOutcome, hs, hb]
      · rw [Bool.not_eq_true] at hb
        simp [handleOutcome, hs, hb]
    · intro hng
      have hb : ((status == 422 || status == 400) && jsIsNull body) = false := by
        rw [Bool.eq_false_iff]
        intro hg
        exact hng (hguard hg)
      simp [handleOutcome, hs, hb]
    · rintro (h | h) <;> subst h <;> simp [handleOutcome, hs]
    · rintro h; subst h; simp [handleOutcome, hs]
    · rintro (h | h) hnull hmsg <;> subst h <;> simp [handleOutcome, hs, hnull, hmsg]
    · rintro (h | h) hnull hmsg <;> subst h <;> simp [handleOutcome, hs, hnull, hmsg]
    · rintro (h | h) hnull <;> subst h <;> simp [handleOutcome, hs, hnull]
    · rintro h; subst h; simp [handleOutcome, hs]
    · rintro h401 h403 h404 h400 h422 h429
      have hb : ((status == 422 || status == 400) && jsIsNull body) = false := by
        rw [Bool.eq_false_iff]
        intro hg
        rcases (hguard hg).1 with h | h
        · exact h400 h
        · exact h422 h
      simp [handleOutcome, hs, hb, h401, h403, h404, h400, h422, h429]

/-- C4: whenever the CSV branch's parse step fails (the try block throws),
downloadInstallationData still returns normally with the response's success
flag intact, the original undecoded payload preserved under content with
encoding base64, and the parse-failure note on meta: the fallback never
re-raises. -/
theorem download_parse_failure_fallback (env : CallEnv) (now : Int)
    (params : DownloadParams) (outcome : HttpOutcome) (r : VRMResponse)
    (hcall : vrmGet env ("/installations/" ++ jsNumToString params.siteId ++ "/data-download")
      (downloadQuery params) outcome = Except.ok r)
    (hok : r.ok = true) (hdata : jsTruthy r.data = true)
    (hdec : downloadDecode params = true) (hfmt : downloadFormat params = "csv")
    (hfail : tryParseCsv r.data = none) :
    downloadInstallationData env now params outcome =
      Except.ok { r with
        data := downloadRawData params now r.data
        meta := { r.meta with note := some "Failed to parse CSV data, returning as base64" } } ∧
    jsGet (downloadRawData params now r.data) "content" = r.data ∧
    jsGet (downloadRawData params now r.data) "encoding" = Json.str "base64" := by
  refine ⟨?_, rfl, rfl⟩
  simp only [downloadInstallationData, hcall, hok, hdata, hdec, hfmt, hfail]
  rfl

theorem download_parse_failure_fallback_witness :
    downloadInstallationData wEnv 5 { siteId := mkRat 7 1 }
        (.resp 200 (Json.num (mkRat 5 1))) =
      Except.ok { handleOutcome wEnv "/installations/7/data-download"
          (.resp 200 (Json.num (mkRat 5 1))) with
        data := downloadRawData { siteId := mkRat 7 1 } 5 (Json.num (mkRat 5 1))
        meta := { (handleOutcome wEnv "/installations/7/data-download"
            (.resp 200 (Json.num (mkRat 5 1)))).meta with
          note := some "Failed to parse CSV data, returning as base64" } } :=
  (download_parse_failure_fallback wEnv 5 { siteId := mkRat 7 1 }
    (.resp 200 (Json.num (mkRat 5 1)))
    (handleOutcome wEnv "/installations/7/data-download" (.resp 200 (Json.num (mkRat 5 1))))
    rfl rfl rfl rfl rfl rfl).1

/-- C5: the composite installations listing without an explicit idUser first
issues the current-user call; when that call's envelope is not ok, that same
envelope is returned with only the error descriptor overridden to
user_fetch_failed (ok stays false and status/meta are preserved, whatever
the underlying HTTP status was); when it is ok and carries a truthy idUser,
that id is interpolated into the /users/id/installations path and the second
call's envelope is returned as-is. -/
theorem listInstallations_composite_rewrap (envUser envInst : CallEnv)
    (params : ListInstallationsParams) (userOutcome instOutcome : HttpOutcome)
    (hNoId : params.idUser = none) :
    ((handleOutcome envUser "/users/me" userOutcome).ok = false →
      listInstallations envUser envInst params userOutcome instOutcome =
        Except.ok { handleOutcome envUser "/users/me" userOutcome with
          error := some { code := "user_fetch_failed",
                          message := Json.str "Failed to fetch user ID" } }) ∧
    ((handleOutcome envUser "/users/me" userOutcome).ok = true →
      jsTruthy (jsGet (handleOutcome envUser "/users/me" userOutcome).data "idUser") = true →
      listInstallations envUser envInst params userOutcome instOutcome =
        vrmGet envInst
          ("/users/" ++
            jsTemplateToString (jsGet (handleOutcome envUser "/users/me" userOutcome).data "idUser") ++
            "/installations")
          (extendedQuery params) instOutcome) := by
  have hme : getUserMe envUser userOutcome =
      Except.ok (handleOutcome envUser "/users/me" userOutcome) := rfl
  constructor
  · intro hfail
    simp only [listInstallations, hNoId, hme,
      show jsTruthy Json.undefined = false from rfl, Bool.false_eq_true, if_false, hfail]
    rfl
  · intro hok hid
    simp only [listInstallations, hNoId, hme,
      show jsTruthy Json.undefined = false from rfl, Bool.false_eq_true, if_false, hok, hid]
    rfl

theorem listInstallations_composite_rewrap_witness :
    listInstallations wEnv wEnv {} (.resp 401 (Json.obj [])) (.resp 200 (Json.obj [])) =
      Except.ok { handleOutcome wEnv "/users/me" (.resp 401 (Json.obj [])) with
        error := some { code := "user_fetch_failed",
                        message := Json.str "Failed to fetch user ID" } } :=
  (listInstallations_composite_rewrap wEnv wEnv {} (.resp 401 (Json.obj []))
    (.resp 200 (Json.obj [])) rfl).1 rfl

/-- C10 (implicit): when the current-user call succeeds (ok=true) but its
payload lacks a truthy idUser field, listInstallations returns that same
envelope with the user_fetch_failed error descriptor attached while ok stays
true: the caller receives an envelope simultaneously marked successful and
carrying an error descriptor. -/
theorem listInstallations_ok_with_error_descriptor (envUser envInst : CallEnv)
    (params : ListInstallationsParams) (userOutcome instOutcome : HttpOutcome)
    (hNoId : params.idUser = none)
    (hok : (handleOutcome envUser "/users/me" userOutcome).ok = true)
    (hfalsy : jsTruthy (jsGet (handleOutcome envUser "/users/me" userOutcome).data "idUser") = false) :
    listInstallations envUser envInst params userOutcome instOutcome =
      Except.ok { handleOutcome envUser "/users/me" userOutcome with
        error := some { code := "user_fetch_failed",
                        message := Json.str "Failed to fetch user ID" } } ∧
    ∀ r, listInstallations envUser envInst params userOutcome instOutcome = Except.ok r →
      r.ok = true ∧ r.error = some { code := "user_fetch_failed",
                                     message := Json.str "Failed to fetch user ID" } := by
  have hme : getUserMe envUser userOutcome =
      Except.ok (handleOutcome envUser "/users/me" userOutcome) := rfl
  have hmain : listInstallations envUser envInst params userOutcome instOutcome =
      Except.ok { handleOutcome envUser "/users/me" userOutcome with
        error := some { code := "user_fetch_failed",
                        message := Json.str "Failed to fetch user ID" } } := by
    simp only [listInstallations, hNoId, hme,
      show jsTruthy Json.undefined = false from rfl, Bool.false_eq_true, if_false, hok, hfalsy]
    rfl
  refine ⟨hmain, fun r hr => ?_⟩
  rw [hmain] at hr
  injection hr with hr'
  rw [← hr']
  exact ⟨hok, rfl⟩

theorem listInstallations_ok_with_error_descriptor_witness :
    listInstallations wEnv wEnv {} (.resp 200 (Json.obj [])) (.resp 200 (Json.obj [])) =
      Except.ok { handleOutcome wEnv "/users/me" (.resp 200 (Json.obj [])) with
        error := some { code := "user_fetch_failed",
                        message := Json.str "Failed to fetch user ID" } } :=
  (listInstallations_ok_with_error_descriptor wEnv wEnv {} (.resp 200 (Json.obj []))
    (.resp 200 (Json.obj [])) rfl rfl rfl).1

/-- C3: for the data-download operation with format csv and decoding
defaulted on, a successful remote response carrying the base64 encoding of
"timestamp,voltage\n1,12.4" is decoded and parsed into exactly one record
with both values coerced to numbers, summary.totalRecords 1, the trimmed
header names as columns, and the echoed time range with ISO-8601 renderings
of the epoch-millisecond bounds. -/
theorem download_csv_parse_concrete :
    downloadInstallationData wEnv 5
        { siteId := mkRat 123 1, start := some (mkRat 1700000000000 1),
          «end» := some (mkRat 1700000100000 1) }
        (.resp 200 (Json.str "dGltZXN0YW1wLHZvbHRhZ2UKMSwxMi40")) =
      Except.ok {
        ok := true
        source := "vrm"
        endpoint := "/installations/123/data-download"
        requestId := "req-1"
        fetchedAt := "1970-01-01T00:00:00.000Z"
        data := Json.obj [
          ("format", Json.str "csv"),
          ("datatype", Json.str "log"),
          ("timeRange", Json.obj [
            ("start", Json.num (mkRat 1700000000000 1)),
            ("end", Json.num (mkRat 1700000100000 1)),
            ("startISO", Json.str "2023-11-14T22:13:20.000Z"),
            ("endISO", Json.str "2023-11-14T22:15:00.000Z")]),
          ("records", Json.arr [Json.obj [
            ("timestamp", Json.num (mkRat 1 1)),
            ("voltage", Json.num (mkRat 124 10))]]),
          ("summary", Json.obj [
            ("totalRecords", Json.num (mkRat 1 1)),
            ("columns", Json.arr [Json.str "timestamp", Json.str "voltage"])])]
        meta := { status := 200, durationMs := 5, rateLimited := false,
                  note := some "CSV data parsed into structured format for easier analysis" }
        error := none } := rfl

/-- Keys other than the repeated array key pass over the attributeCodes
entries of the overallstats query unchanged. -/
theorem lookup_attributeCodes_skip (key : String)
    (h : (key == "attributeCodes[]") = false) (codes : List String)
    (tail : List (String × String)) :
    ((codes.map (fun code => ("attributeCodes[]", code))) ++ tail).lookup key =
      tail.lookup key := by
  induction codes with
  | nil => rfl
  | cons c cs ih => simp [List.lookup, h, ih]

/-- Notes are never attached by the plain classification: every envelope
handleOutcome builds has no meta note. -/
theorem handleOutcome_note_none (env : CallEnv) (path : String) (outcome : HttpOutcome) :
    (handleOutcome env path outcome).meta.note = none := by
  cases outcome with
  | exn m => rfl
  | resp status body =>
    by_cases hs : statusOk status = true
    · simp [handleOutcome, hs]
    · rw [Bool.not_eq_true] at hs
      by_cases hb : ((status == 422 || status == 400) && jsIsNull body) = true
      · simp [handleOutcome, hs, hb]
      · rw [Bool.not_eq_true] at hb
        simp [handleOutcome, hs, hb]

/-- C8: for the aggregated-totals operation, a supplied start (or end) bound
is emitted as a query parameter exactly when the effective (defaulted)
period type is custom, and never when omitted; and on a successful response
the timezone advisory note is attached exactly when the effective type is a
relative period (today, yesterday, month, year), never for custom. -/
theorem overallStats_custom_range_and_note (env : CallEnv)
    (params : OverallStatsParams) (outcome : HttpOutcome) :
    (∀ s, params.start = some s →
      ((overallStatsQuery params).lookup "start" =
        if overallStatsType params = "custom" then some (jsNumToString s) else none)) ∧
    (params.start = none → (overallStatsQuery params).lookup "start" = none) ∧
    (∀ e, params.«end» = some e →
      ((overallStatsQuery params).lookup "end" =
        if overallStatsType params = "custom" then some (jsNumToString e) else none)) ∧
    (params.«end» = none → (overallStatsQuery params).lookup "end" = none) ∧
    (∀ r, getOverallStats env params outcome = Except.ok r →
      (r.meta.note = some tzNote ↔
        r.ok = true ∧ (overallStatsType params = "today" ∨ overallStatsType params = "yesterday" ∨
          overallStatsType params = "month" ∨ overallStatsType params = "year")) ∧
      (overallStatsType params = "custom" → r.meta.note = none)) := by
  have hst : (("start" : String) == "type") = false := rfl
  have hsa : (("start" : String) == "attributeCodes[]") = false := rfl
  have hse : (("start" : String) == "start") = true := rfl
  have het : (("end" : String) == "type") = false := rfl
  have hea : (("end" : String) == "attributeCodes[]") = false := rfl
  have hes : (("end" : String) == "start") = false := rfl
  have hee : (("end" : String) == "end") = true := rfl
  refine ⟨fun s hs => ?_, fun hs => ?_, fun e he => ?_, fun he => ?_, fun r hr => ?_⟩
  · by_cases ht : overallStatsType params = "custom"
    · simp [overallStatsQuery, hs, ht, List.lookup, hst, lookup_attributeCodes_skip, hsa]
    · have hb : (overallStatsType params == "custom") = false := beq_eq_false_iff_ne.mpr ht
      cases he : params.«end» with
      | none => simp [overallStatsQuery, hs, he, hb, ht, List.lookup, hst,
          lookup_attributeCodes_skip, hsa]
      | some e => simp [overallStatsQuery, hs, he, hb, ht, List.lookup, hst,
          lookup_attributeCodes_skip, hsa]
  · by_cases ht : overallStatsType params = "custom" <;>
      cases he : params.«end» <;>
      simp [overallStatsQuery, hs, he, ht, List.lookup, hst, lookup_attributeCodes_skip,
        hsa, hes]
  · by_cases ht : overallStatsType params = "custom"
    · cases hs : params.start with
      | none => simp [overallStatsQuery, hs, he, ht, List.lookup, het,
          lookup_attributeCodes_skip, hea, hes]
      | some s => simp [overallStatsQuery, hs, he, ht, List.lookup, het,
          lookup_attributeCodes_skip, hea, hes]
    · have hb : (overallStatsType params == "custom") = false := beq_eq_false_iff_ne.mpr ht
      cases hs : params.start with
      | none => simp [overallStatsQuery, hs, he, hb, ht, List.lookup, het,
          lookup_attributeCodes_skip, hea]
      | some s => simp [overallStatsQuery, hs, he, hb, ht, List.lookup, het,
          lookup_attributeCodes_skip, hea]
  · by_cases ht : overallStatsType params = "custom" <;>
      cases hs : params.start <;>
      simp [overallStatsQuery, hs, he, ht, List.lookup, het, lookup_attributeCodes_skip,
        hea, hes]
  · cases hv : vrmGet env ("/installations/" ++ jsNumToString params.siteId ++ "/overallstats")
        (overallStatsQuery params) outcome with
    | error msg =>
      simp only [getOverallStats, hv] at hr
      exact Except.noConfusion hr
    | ok resp =>
      have hnote : resp.meta.note = none := by
        unfold vrmGet at hv
        by_cases ha : isAllowedPath
            ("/installations/" ++ jsNumToString params.siteId ++ "/overallstats") = true
        · rw [if_pos ha] at hv
          injection hv with hv'
          rw [← hv']
          exact handleOutcome_note_none _ _ _
        · rw [Bool.not_eq_true] at ha
          simp [ha] at hv
      simp only [getOverallStats, hv] at hr
      by_cases hcond : (resp.ok && (overallStatsType params == "today" ||
          overallStatsType params == "yesterday" || overallStatsType params == "month" ||
          overallStatsType params == "year")) = true
      · rw [if_pos hcond] at hr
        injection hr with hr'
        rw [← hr']
        have hparts := hcond
        simp only [Bool.and_eq_true, Bool.or_eq_true, beq_iff_eq] at hparts
        constructor
        · exact ⟨fun _ => ⟨hparts.1, by tauto⟩, fun _ => rfl⟩
        · intro hcustom
          rcases hparts.2 with ((h | h) | h) | h <;>
            exact absurd (hcustom.symm.trans h) (by decide)
      · rw [Bool.not_eq_true] at hcond
        rw [if_neg (by simp [hcond])] at hr
        injection hr with hr'
        rw [← hr']
        refine ⟨?_, fun _ => hnote⟩
        rw [hnote]
        constructor
        · intro h
          exact absurd h (by simp)
        · rintro ⟨hok2, hrel⟩
          exfalso
          have hok3 : (resp.ok && (overallStatsType params == "today" ||
              overallStatsType params == "yesterday" || overallStatsType params == "month" ||
              overallStatsType params == "year")) = true := by
            rw [Bool.and_eq_true]
            refine ⟨hok2, ?_⟩
            simp only [Bool.or_eq_true, beq_iff_eq]
            tauto
          exact absurd hok3 (by simp [hcond])

/-- C9 counterexample: supplying activeOnly with value false to the alarms
operation yields NO corresponding query parameter (the dispatcher tests the
flag's truthiness, not its presence), refuting the claim that every supplied
optional argument produces a query parameter. -/
theorem alarms_supplied_false_not_emitted :
    alarmsQuery { siteId := mkRat 1 1, activeOnly := some false } = [] ∧
    ({ siteId := mkRat 1 1, activeOnly := some false } : AlarmsParams).activeOnly = some false :=
  ⟨rfl, rfl⟩

/-- C9 (amended): across every operation of the dispatcher, an omitted
optional argument produces no query parameter. A supplied optional argument
gated on presence (alarms page/pageSize, stats start/end, diagnostics
offset, download start/end, gps-download start/end, data-attributes offset,
and the widget endpoints' instance) always produces its parameter. A
supplied optional argument gated on truthiness (alarms activeOnly,
installations-listing extended, search query/limit, data-attributes
filter/sort/limit, firmwares type/version) produces its parameter exactly
when the value is truthy: a supplied false, empty string or zero is
dropped. Fields with a declared explicit default are always emitted with
the default applied before query construction (stats interval 15mins,
diagnostics count 200, download datatype log and format csv, and the
aggregated-totals period type custom); the download decode flag is consumed
locally and never emitted. The aggregated-totals start/end are the one
further exception: supplied bounds are emitted only when the defaulted
period type is custom. -/
theorem optional_args_query_emission (ap : AlarmsParams) (sp : StatsParams)
    (dp : DiagnosticsParams) (wp : DownloadParams) (op : OverallStatsParams)
    (lp : ListInstallationsParams) (sup : SearchUserParams) (gp : GpsDownloadParams)
    (dap : DataAttributesParams) (fp : FirmwaresParams) (ip : InstanceParams) :
    ((alarmsQuery ap).lookup "activeOnly" =
      if ap.activeOnly = some true then some "true" else none) ∧
    ((alarmsQuery ap).lookup "page" = ap.page.map jsNumToString) ∧
    ((alarmsQuery ap).lookup "pageSize" = ap.pageSize.map jsNumToString) ∧
    ((statsQuery sp).lookup "start" = sp.start.map jsNumToString) ∧
    ((statsQuery sp).lookup "end" = sp.«end».map jsNumToString) ∧
    (sp.interval = none → (statsQuery sp).lookup "interval" = some "15mins") ∧
    (dp.count = none → (diagnosticsQuery dp).lookup "count" = some "200") ∧
    ((diagnosticsQuery dp).lookup "offset" = dp.offset.map jsNumToString) ∧
    (wp.datatype = none → (downloadQuery wp).lookup "datatype" = some "log") ∧
    (wp.format = none → (downloadQuery wp).lookup "format" = some "csv") ∧
    ((downloadQuery wp).lookup "start" = wp.start.map jsNumToString) ∧
    ((downloadQuery wp).lookup "end" = wp.«end».map jsNumToString) ∧
    ((downloadQuery wp).lookup "decode" = none) ∧
    ((overallStatsQuery op).lookup "type" = some (overallStatsType op)) ∧
    (∀ s, op.start = some s → overallStatsType op = "custom" →
      (overallStatsQuery op).lookup "start" = some (jsNumToString s)) ∧
    (overallStatsType op ≠ "custom" →
      (overallStatsQuery op).lookup "start" = none ∧
      (overallStatsQuery op).lookup "end" = none) ∧
    (op.start = none → (overallStatsQuery op).lookup "start" = none) ∧
    (op.«end» = none → (overallStatsQuery op).lookup "end" = none) ∧
    ((extendedQuery lp).lookup "extended" =
      if lp.extended = some true then some "1" else none) ∧
    ((searchUserQuery sup).lookup "query" =
      match sup.query with
      | some q => if q = "" then none else some q
      | none => none) ∧
    ((searchUserQuery sup).lookup "limit" =
      match sup.limit with
      | some l => if l = 0 then none else some (jsNumToString l)
      | none => none) ∧
    ((gpsDownloadQuery gp).lookup "start" = gp.start.map jsNumToString) ∧
    ((gpsDownloadQuery gp).lookup "end" = gp.«end».map jsNumToString) ∧
    ((dataAttributesQuery dap).lookup "filter" =
      match dap.filter with
      | some f => if f = "" then none else some f
      | none => none) ∧
    ((dataAttributesQuery dap).lookup "sort" =
      match dap.sort with
      | some s => if s = "" then none else some s
      | none => none) ∧
    ((dataAttributesQuery dap).lookup "limit" =
      match dap.limit with
      | some l => if l = 0 then none else some (jsNumToString l)
      | none => none) ∧
    ((dataAttributesQuery dap).lookup "offset" = dap.offset.map jsNumToString) ∧
    ((firmwaresQuery fp).lookup "type" =
      match fp.type with
      | some t => if t = "" then none else some t
      | none => none) ∧
    ((firmwaresQuery fp).lookup "version" =
      match fp.version with
      | some v => if v = "" then none else some v
      | none => none) ∧
    ((instanceQuery ip).lookup "instance" = ip.«instance».map jsNumToString) := by
  refine ⟨?_, ?_, ?_, ?_, ?_, fun hi => ?_, fun hc => ?_, ?_, fun hd => ?_, fun hf => ?_,
    ?_, ?_, ?_, ?_, fun s hs ht => ?_, fun ht => ?_, fun hs => ?_, fun he => ?_, ?_, ?_, ?_,
    ?_, ?_, ?_, ?_, ?_, ?_, ?_, ?_, ?_⟩
  · rcases hao : ap.activeOnly with _ | (_ | _) <;>
      rcases hp : ap.page with _ | p <;>
      rcases hps : ap.pageSize with _ | ps <;>
      simp [alarmsQuery, hao, hp, hps, List.lookup]
  · rcases hao : ap.activeOnly with _ | (_ | _) <;>
      rcases hp : ap.page with _ | p <;>
      rcases hps : ap.pageSize with _ | ps <;>
      simp [alarmsQuery, hao, hp, hps, List.lookup]
  · rcases hao : ap.activeOnly with _ | (_ | _) <;>
      rcases hp : ap.page with _ | p <;>
      rcases hps : ap.pageSize with _ | ps <;>
      simp [alarmsQuery, hao, hp, hps, List.lookup]
  · rcases hi : sp.interval with _ | i <;>
      rcases hs : sp.start with _ | s <;>
      rcases he : sp.«end» with _ | e <;>
      simp [statsQuery, hi, hs, he, List.lookup]
  · rcases hi : sp.interval with _ | i <;>
      rcases hs : sp.start with _ | s <;>
      rcases he : sp.«end» with _ | e <;>
      simp [statsQuery, hi, hs, he, List.lookup]
  · simp [statsQuery, hi, List.lookup]
  · simp [diagnosticsQuery, hc, List.lookup]
    decide
  · rcases hc : dp.count with _ | c <;>
      rcases ho : dp.offset with _ | o <;>
      simp [diagnosticsQuery, hc, ho, List.lookup]
  · simp [downloadQuery, downloadDatatype, hd, List.lookup]
  · rcases hd : wp.datatype with _ | d <;>
      simp [downloadQuery, downloadDatatype, downloadFormat, hd, hf, List.lookup]
  · rcases hs : wp.start with _ | s <;>
      rcases he : wp.«end» with _ | e <;>
      simp [downloadQuery, hs, he, List.lookup]
  · rcases hs : wp.start with _ | s <;>
      rcases he : wp.«end» with _ | e <;>
      simp [downloadQuery, hs, he, List.lookup]
  · rcases hs : wp.start with _ | s <;>
      rcases he : wp.«end» with _ | e <;>
      simp [downloadQuery, hs, he, List.lookup]
  · simp [overallStatsQuery, List.lookup]
  · simp [overallStatsQuery, hs, ht, List.lookup,
      show (("start" : String) == "type") = false from rfl,
      lookup_attributeCodes_skip "start" rfl]
  · have hb : (overallStatsType op == "custom") = false := beq_eq_false_iff_ne.mpr ht
    constructor
    · rcases hs : op.start with _ | s <;>
        rcases he : op.«end» with _ | e <;>
        simp [overallStatsQuery, hs, he, hb, List.lookup,
          show (("start" : String) == "type") = false from rfl,
          lookup_attributeCodes_skip "start" rfl]
    · rcases hs : op.start with _ | s <;>
        rcases he : op.«end» with _ | e <;>
        simp [overallStatsQuery, hs, he, hb, List.lookup,
          show (("end" : String) == "type") = false from rfl,
          show (("end" : String) == "start") = false from rfl,
          lookup_attributeCodes_skip "end" rfl]
  · by_cases ht : overallStatsType op = "custom" <;>
      rcases he : op.«end» with _ | e <;>
      simp [overallStatsQuery, hs, he, ht, List.lookup,
        show (("start" : String) == "type") = false from rfl,
        lookup_attributeCodes_skip "start" rfl]
  · by_cases ht : overallStatsType op = "custom" <;>
      rcases hs : op.start with _ | s <;>
      simp [overallStatsQuery, hs, he, ht, List.lookup,
        show (("end" : String) == "type") = false from rfl,
        show (("end" : String) == "start") = false from rfl,
        lookup_attributeCodes_skip "end" rfl]
  · rcases hx : lp.extended with _ | (_ | _) <;> simp [extendedQuery, hx, List.lookup]
  · rcases hq : sup.query with _ | q <;>
      rcases hl : sup.limit with _ | l <;>
      simp [searchUserQuery, hq, hl, List.lookup, beq_iff_eq] <;>
      (try split_ifs) <;>
      (first
        | simp [List.lookup]
        | aesop)
  · rcases hq : sup.query with _ | q <;>
      rcases hl : sup.limit with _ | l <;>
      simp [searchUserQuery, hq, hl, List.lookup, beq_iff_eq] <;>
      (try split_ifs) <;>
      (first
        | simp [List.lookup]
        | aesop)
  · rcases hs : gp.start with _ | s <;>
      rcases he : gp.«end» with _ | e <;>
      simp [gpsDownloadQuery, hs, he, List.lookup]
  · rcases hs : gp.start with _ | s <;>
      rcases he : gp.«end» with _ | e <;>
      simp [gpsDownloadQuery, hs, he, List.lookup]
  · rcases hfl : dap.filter with _ | f <;>
      rcases hso : dap.sort with _ | s <;>
      rcases hl : dap.limit with _ | l <;>
      rcases ho : dap.offset with _ | o <;>
      simp [dataAttributesQuery, hfl, hso, hl, ho, List.lookup, beq_iff_eq] <;>
      (try split_ifs) <;>
      (first
        | simp [List.lookup]
        | aesop)
  · rcases hfl : dap.filter with _ | f <;>
      rcases hso : dap.sort with _ | s <;>
      rcases hl : dap.limit with _ | l <;>
      rcases ho : dap.offset with _ | o <;>
      simp [dataAttributesQuery, hfl, hso, hl, ho, List.lookup, beq_iff_eq] <;>
      (try split_ifs) <;>
      (first
        | simp [List.lookup]
        | aesop)
  · rcases hfl : dap.filter with _ | f <;>
      rcases hso : dap.sort with _ | s <;>
      rcases hl : dap.limit with _ | l <;>
      rcases ho : dap.offset with _ | o <;>
      simp [dataAttributesQuery, hfl, hso, hl, ho, List.lookup, beq_iff_eq] <;>
      (try split_ifs) <;>
      (first
        | simp [List.lookup]
        | aesop)
  · rcases hfl : dap.filter with _ | f <;>
      rcases hso : dap.sort with _ | s <;>
      rcases hl : dap.limit with _ | l <;>
      rcases ho : dap.offset with _ | o <;>
      simp [dataAttributesQuery, hfl, hso, hl, ho, List.lookup, beq_iff_eq] <;>
      (try split_ifs) <;>
      (first
        | simp [List.lookup]
        | aesop)
  · rcases ht : fp.type with _ | t <;>
      rcases hv : fp.version with _ | v <;>
      simp [firmwaresQuery, ht, hv, List.lookup, beq_iff_eq] <;>
      (try split_ifs) <;>
      (first
        | simp [List.lookup]
        | aesop)
  · rcases ht : fp.type with _ | t <;>
      rcases hv : fp.version with _ | v <;>
      simp [firmwaresQuery, ht, hv, List.lookup, beq_iff_eq] <;>
      (try split_ifs) <;>
      (first
        | simp [List.lookup]
        | aesop)
  · rcases hi : ip.«instance» with _ | i <;> simp [instanceQuery, hi, List.lookup]
